import Mathlib

/-
Verification of the mockapi request-handling and data-synchronization engine
(createMockServer in the repository's index module), as a shallow embedding.

Modelling conventions:
  * Scalar JSON values (and the JavaScript `undefined`) are modelled by `JVal`.
    Numbers are modelled as integers; the JavaScript NaN produced by
    `Math.max` over non-numeric operands is the explicit constructor `jnan`.
    Nested objects and arrays inside records play no role in any handler
    logic (they are only compared for equality), so they are not modelled.
  * A record is an association list `JObj`; field lookup is first-match.
    Objects produced by JSON.parse have unique keys, so first-match and
    last-match coincide on all inputs the server actually sees.
  * The JavaScript object-literal spread `{k: v, ...b}` is `mergeObjs`:
    keys of the right operand override keys of the left one.
  * `JSON.parse` / file reading are platform functions, not repository code;
    they enter as an explicit `parse` function argument where needed.
  * Each route handler returns its HTTP status, the JSON body it sends,
    the data store after the handler ran, and whether `saveData` actually
    wrote the backing file (`writeFileSync` is executed iff not readonly).
-/

namespace MockApi

/-- Scalar JavaScript values as stored in records: `jundef` is `undefined`
(a missing field), `jnan` is the floating NaN produced by `Math.max`. -/
inductive JVal where
  | jundef : JVal
  | jnull : JVal
  | jbool : Bool → JVal
  | jnum : Int → JVal
  | jnan : JVal
  | jstr : String → JVal
deriving DecidableEq, Repr

/-- A record: an ordered association list of fields, as a JS object. -/
abbrev JObj := List (String × JVal)

/-- The `DataStore` of the source: resource name to ordered record list. -/
abbrev DataStore := List (String × List JObj)

/-- A parsed query string: list of key/value pairs (all values strings). -/
abbrev Query := List (String × String)

/-- Field lookup on a record (first matching key), `none` = absent. -/
def JObj.get (o : JObj) (k : String) : Option JVal :=
  (o.find? (fun p => p.1 == k)).map (fun p => p.2)

/-- Property access `o[k]` as JavaScript sees it: a missing field reads
as `undefined`. -/
def jsGet (o : JObj) (k : String) : JVal :=
  (JObj.get o k).getD JVal.jundef

/-- Object-literal spread `{...a, ...b}`: fields of `b` override fields
of `a`; lookup on the result prefers `b`. -/
def mergeObjs (a b : JObj) : JObj :=
  a.filter (fun p => (JObj.get b p.1).isNone) ++ b

/-- JavaScript truthiness of a scalar value. -/
def truthy : JVal → Bool
  | JVal.jundef => false
  | JVal.jnull => false
  | JVal.jbool b => b
  | JVal.jnum n => n != 0
  | JVal.jnan => false
  | JVal.jstr s => s != ""

/-- The expression `v || d` of the source (`i.id || 0`): the left operand
if truthy, otherwise the default. -/
def jsOr (v : JVal) (d : JVal) : JVal :=
  if truthy v then v else d

/-- Decimal digits of a trimmed string, as a natural number;
`none` when there is no leading digit. -/
def digitsVal (cs : List Char) : Option Nat :=
  if cs.isEmpty then none
  else some (cs.foldl (fun a c => a * 10 + (c.toNat - 48)) 0)

/-- JavaScript `String(v)` on the scalar values of the model. -/
def jToString : JVal → String
  | JVal.jundef => "undefined"
  | JVal.jnull => "null"
  | JVal.jbool b => if b then "true" else "false"
  | JVal.jnum n => Int.repr n
  | JVal.jnan => "NaN"
  | JVal.jstr s => s

/-- JavaScript `ToNumber` on the scalar values of the model, with `none`
standing for NaN.  String conversion handles sign and decimal digits,
which covers every string the engine ever coerces in the claims. -/
def toNumber : JVal → Option Int
  | JVal.jundef => none
  | JVal.jnull => some 0
  | JVal.jbool b => some (if b then 1 else 0)
  | JVal.jnum n => some n
  | JVal.jnan => none
  | JVal.jstr s =>
    match ((s.toList.dropWhile (fun c => c.isWhitespace)).reverse.dropWhile
        (fun c => c.isWhitespace)).reverse with
    | [] => some 0
    | '-' :: rest =>
      if rest.all (fun c => c.isDigit) then (digitsVal rest).map (fun n => -(n : Int)) else none
    | '+' :: rest =>
      if rest.all (fun c => c.isDigit) then (digitsVal rest).map (fun n => (n : Int)) else none
    | cs =>
      if cs.all (fun c => c.isDigit) then (digitsVal cs).map (fun n => (n : Int)) else none

/-- JavaScript `parseInt` applied to an optional query value:
`parseInt(undefined)` is NaN (`none`); leading whitespace is skipped, an
optional sign is consumed, then the longest digit run is parsed. -/
def parseIntJS : Option String → Option Int
  | none => none
  | some s =>
    match s.toList.dropWhile (fun c => c.isWhitespace) with
    | '-' :: rest => (digitsVal (rest.takeWhile (fun c => c.isDigit))).map (fun n => -(n : Int))
    | '+' :: rest => (digitsVal (rest.takeWhile (fun c => c.isDigit))).map (fun n => (n : Int))
    | cs => (digitsVal (cs.takeWhile (fun c => c.isDigit))).map (fun n => (n : Int))

/-- The pattern `e || d` on an optional number (`parseInt(x) || d`):
NaN and 0 are falsy, so both fall back to the default. -/
def jsNumOr (x : Option Int) (d : Int) : Int :=
  match x with
  | some n => if n = 0 then d else n
  | none => d

/-- `Math.max` over two possibly-NaN operands: NaN is absorbing. -/
def optMax : Option Int → Option Int → Option Int
  | some a, some b => some (max a b)
  | _, _ => none

/-- Query lookup (`url.query[k]`). -/
def qget (q : Query) (k : String) : Option String :=
  (q.find? (fun p => p.1 == k)).map (fun p => p.2)

/-- `data[resource] || []`. -/
def getColl (s : DataStore) (res : String) : List JObj :=
  ((s.find? (fun p => p.1 == res)).map (fun p => p.2)).getD []

/-- `data[resource] = items`: overwrite an existing key in place, or
append a new key (JS object key insertion order). -/
def setColl (s : DataStore) (res : String) (items : List JObj) : DataStore :=
  if (s.find? (fun p => p.1 == res)).isSome then
    s.map (fun p => if p.1 == res then (p.1, items) else p)
  else s ++ [(res, items)]

/-- The route predicate `String(i.id) === params.id`. -/
def objMatchesId (idStr : String) (o : JObj) : Bool :=
  jToString (jsGet o "id") == idStr

/-- The coerced id of one record inside the create handler:
`ToNumber(i.id || 0)`, with `none` = NaN. -/
def idCoerced (r : JObj) : Option Int :=
  toNumber (jsOr (jsGet r "id") (JVal.jnum 0))

/-- `items.length > 0 ? Math.max(...items.map(i => i.id || 0)) + 1 : 1`,
with `none` = NaN. -/
def newId (items : List JObj) : Option Int :=
  match items.map idCoerced with
  | [] => some 1
  | x :: xs => (xs.foldl optMax x).map (fun m => m + 1)

/-- The scalar actually stored in the `id` field of a created record. -/
def numOrNaN : Option Int → JVal
  | some n => JVal.jnum n
  | none => JVal.jnan

/-- Whether `saveData` writes the file: `writeFileSync` runs iff the
server is not readonly. -/
def saveWrote (ro : Bool) : Bool := !ro

/-- Result of one route handler: HTTP status, JSON body sent, data store
afterwards, and whether the backing file was written. -/
structure HRes where
  status : Nat
  body : JObj
  store : DataStore
  wrote : Bool
deriving DecidableEq, Repr

/-- The 403 body of every mutating handler in readonly mode. -/
def roErr : JObj := [("error", JVal.jstr "Server is in read-only mode")]

/-- The 404 body. -/
def notFoundErr : JObj := [("error", JVal.jstr "Not found")]

/-- The POST handler (create). -/
def createHandler (ro : Bool) (s : DataStore) (res : String) (b : JObj) : HRes :=
  if ro then ⟨403, roErr, s, false⟩
  else
    let items := getColl s res
    let newItem := mergeObjs [("id", numOrNaN (newId items))] b
    ⟨201, newItem, setColl s res (items ++ [newItem]), saveWrote ro⟩

/-- The PUT handler (replace): the stored record is replaced by the
object literal with first field `id: items[idx].id` and then the spread
request body. -/
def replaceHandler (ro : Bool) (s : DataStore) (res idStr : String) (b : JObj) : HRes :=
  if ro then ⟨403, roErr, s, false⟩
  else
    let items := getColl s res
    match items.findIdx? (objMatchesId idStr) with
    | none => ⟨404, notFoundErr, s, false⟩
    | some idx =>
      let orig := (items[idx]?).getD []
      let updated := mergeObjs [("id", jsGet orig "id")] b
      ⟨200, updated, setColl s res (items.set idx updated), saveWrote ro⟩

/-- The PATCH handler (update): shallow merge of the body onto the
stored record. -/
def updateHandler (ro : Bool) (s : DataStore) (res idStr : String) (b : JObj) : HRes :=
  if ro then ⟨403, roErr, s, false⟩
  else
    let items := getColl s res
    match items.findIdx? (objMatchesId idStr) with
    | none => ⟨404, notFoundErr, s, false⟩
    | some idx =>
      let orig := (items[idx]?).getD []
      let updated := mergeObjs orig b
      ⟨200, updated, setColl s res (items.set idx updated), saveWrote ro⟩

/-- The DELETE handler. -/
def deleteHandler (ro : Bool) (s : DataStore) (res idStr : String) : HRes :=
  if ro then ⟨403, roErr, s, false⟩
  else
    let items := getColl s res
    match items.findIdx? (objMatchesId idStr) with
    | none => ⟨404, notFoundErr, s, false⟩
    | some idx => ⟨200, [], setColl s res (items.eraseIdx idx), saveWrote ro⟩

/-- The single-record GET handler. -/
def getOneHandler (s : DataStore) (res idStr : String) : HRes :=
  match (getColl s res).find? (objMatchesId idStr) with
  | none => ⟨404, notFoundErr, s, false⟩
  | some item => ⟨200, item, s, false⟩

/-- The four reserved query keys of the list handler. -/
def reservedKeys : List String := ["_page", "_limit", "_sort", "_order"]

/-- `Array.prototype.slice(start, stop)` of ECMAScript: negative indices
count from the end, both indices are clamped to the array bounds. -/
def jsSlice (l : List α) (start stop : Int) : List α :=
  let len : Int := l.length
  let s := if start < 0 then max (len + start) 0 else min start len
  let e := if stop < 0 then max (len + stop) 0 else min stop len
  (l.drop s.toNat).take (e - s).toNat

/-- The abstract relational comparison `a < b` of JavaScript restricted
to the scalar values of the model: two strings compare lexicographically,
anything else is compared after numeric coercion, and NaN compares false. -/
def jsLt (a b : JVal) : Bool :=
  match a, b with
  | JVal.jstr s, JVal.jstr t => decide (s < t)
  | _, _ =>
    match toNumber a, toNumber b with
    | some x, some y => decide (x < y)
    | _, _ => false

/-- The sort comparator of the list handler. -/
def jsCompare (sortKey : String) (ord : Int) (a b : JObj) : Int :=
  if jsLt (jsGet a sortKey) (jsGet b sortKey) then -1 * ord
  else if jsLt (jsGet b sortKey) (jsGet a sortKey) then 1 * ord
  else 0

/-- Stable insertion into a sorted list: the element goes after every
element it does not strictly precede. -/
def sortInsert (cmp : α → α → Int) (x : α) : List α → List α
  | [] => [x]
  | y :: ys => if cmp x y < 0 then x :: y :: ys else y :: sortInsert cmp x ys

/-- A stable comparator sort, modelling the (stable) `Array.prototype.sort`. -/
def stableSort (cmp : α → α → Int) (l : List α) : List α :=
  l.foldl (fun acc x => sortInsert cmp x acc) []

/-- The filtering loop of the list handler: every non-reserved query key
is an equality filter on the string coercion of the field. -/
def filterStage (q : Query) (items : List JObj) : List JObj :=
  q.foldl
    (fun acc kv =>
      if kv.1 ∈ reservedKeys then acc
      else acc.filter (fun it => jToString (jsGet it kv.1) == kv.2))
    items

/-- `parseInt(url.query._page) || 1`. -/
def pageOf (q : Query) : Int :=
  jsNumOr (parseIntJS (qget q "_page")) 1

/-- `parseInt(url.query._limit) || items.length` (filtered length). -/
def limitOf (q : Query) (n : Int) : Int :=
  jsNumOr (parseIntJS (qget q "_limit")) n

/-- The pagination step of the list handler, applied to the filtered
collection. -/
def pageStage (q : Query) (filtered : List JObj) : List JObj :=
  let page := pageOf q
  let limit := limitOf q filtered.length
  let start := (page - 1) * limit
  jsSlice filtered start (start + limit)

/-- The sorting step of the list handler, applied to the sliced page:
skipped when `_sort` is absent or empty (falsy), descending exactly when
`_order` equals "desc". -/
def sortStage (q : Query) (paged : List JObj) : List JObj :=
  match qget q "_sort" with
  | some k =>
    if k == "" then paged
    else stableSort (jsCompare k (if qget q "_order" == some "desc" then -1 else 1)) paged
  | none => paged

/-- Result of the list handler: status, body and the X-Total-Count value. -/
structure ListRes where
  status : Nat
  body : List JObj
  totalCount : Nat
deriving DecidableEq, Repr

/-- The collection GET handler, transcribed statement by statement from
the source: filter loop, page/limit parsing, slice, conditional in-place
sort of the slice, X-Total-Count from the filtered length. -/
def listHandler (s : DataStore) (res : String) (q : Query) : ListRes :=
  let items0 := getColl s res
  let items :=
    q.foldl
      (fun acc kv =>
        if kv.1 ∈ reservedKeys then acc
        else acc.filter (fun it => jToString (jsGet it kv.1) == kv.2))
      items0
  let page := jsNumOr (parseIntJS (qget q "_page")) 1
  let limit := jsNumOr (parseIntJS (qget q "_limit")) items.length
  let start := (page - 1) * limit
  let paged := jsSlice items start (start + limit)
  let sorted :=
    match qget q "_sort" with
    | some k =>
      if k == "" then paged
      else stableSort (jsCompare k (if qget q "_order" == some "desc" then -1 else 1)) paged
    | none => paged
  ⟨200, sorted, items.length⟩

/-- Modelled from the spec: the page window written in the spec as the
index interval from (page-1)*limit up to (page-1)*limit + limit, read as
a plain set of indices into the filtered collection (indices outside the
collection contribute nothing).  This is the spec-side definition that
the source's `jsSlice`-based pagination is compared against. -/
def specWindow (l : List α) (start lim : Int) : List α :=
  (l.drop (max start 0).toNat).take ((start + lim) - max start 0).toNat

/-- One entry of the generated route table: collection pattern
`^/res$` or single-item pattern `^/res/([^/]+)$`. -/
inductive RoutePat where
  | coll : String → RoutePat
  | item : String → RoutePat
deriving DecidableEq, Repr

/-- The six routes generated for one resource, in source order. -/
def routesFor (res : String) : List (String × RoutePat) :=
  [("GET", RoutePat.coll res), ("GET", RoutePat.item res),
   ("POST", RoutePat.coll res), ("PUT", RoutePat.item res),
   ("PATCH", RoutePat.item res), ("DELETE", RoutePat.item res)]

/-- The route table generated from the store's keys at load time. -/
def genRoutes (s : DataStore) : List (String × RoutePat) :=
  (s.map (fun p => p.1)).flatMap routesFor

/-- Matching the item pattern tail: a nonempty slash-free segment. -/
def splitSeg (pre path : String) : Option String :=
  let p := pre.toList
  let cs := path.toList
  if p.isPrefixOf cs then
    let seg := cs.drop p.length
    if !seg.isEmpty && !(seg.contains '/') then some (String.mk seg) else none
  else none

/-- `pathname.match(route.path)`: returns the captured id segment for an
item route, `none` inside `some` for a collection route. -/
def matchPat (pat : RoutePat) (path : String) : Option (Option String) :=
  match pat with
  | RoutePat.coll res => if path == "/" ++ res then some none else none
  | RoutePat.item res =>
    match splitSeg ("/" ++ res ++ "/") path with
    | some seg => some (some seg)
    | none => none

/-- The route-table scan of `handleRequest`: first entry whose method and
pattern both match. -/
def findRoute (routes : List (String × RoutePat)) (m path : String) :
    Option (RoutePat × Option String) :=
  match routes with
  | [] => none
  | (rm, pat) :: rest =>
    if rm == m then
      match matchPat pat path with
      | some idp => some (pat, idp)
      | none => findRoute rest m path
    else findRoute rest m path

/-- A response body on the wire: a JSON object, a JSON array (list
endpoint), or the empty body of the 204 OPTIONS short circuit. -/
inductive RespBody where
  | obj : JObj → RespBody
  | arr : List JObj → RespBody
  | empty : RespBody
deriving DecidableEq, Repr

/-- Result of the whole request pipeline: status, body, the optional
X-Total-Count header, whether the CORS headers were attached, the data
store afterwards, and whether the backing file was written. -/
structure HResult where
  status : Nat
  body : RespBody
  totalCount : Option Nat
  corsHeaders : Bool
  store : DataStore
  wrote : Bool
deriving DecidableEq, Repr

/-- Dispatch of a matched route to its handler. -/
def execRoute (ro : Bool) (s : DataStore) (m : String) (pat : RoutePat)
    (idp : Option String) (q : Query) (b : JObj) :
    Nat × RespBody × Option Nat × DataStore × Bool :=
  match pat, m with
  | RoutePat.coll res, "GET" =>
    let r := listHandler s res q
    (r.status, RespBody.arr r.body, some r.totalCount, s, false)
  | RoutePat.item res, "GET" =>
    let r := getOneHandler s res (idp.getD "")
    (r.status, RespBody.obj r.body, none, r.store, r.wrote)
  | RoutePat.coll res, "POST" =>
    let r := createHandler ro s res b
    (r.status, RespBody.obj r.body, none, r.store, r.wrote)
  | RoutePat.item res, "PUT" =>
    let r := replaceHandler ro s res (idp.getD "") b
    (r.status, RespBody.obj r.body, none, r.store, r.wrote)
  | RoutePat.item res, "PATCH" =>
    let r := updateHandler ro s res (idp.getD "") b
    (r.status, RespBody.obj r.body, none, r.store, r.wrote)
  | RoutePat.item res, "DELETE" =>
    let r := deleteHandler ro s res (idp.getD "")
    (r.status, RespBody.obj r.body, none, r.store, r.wrote)
  | _, _ => (404, RespBody.obj notFoundErr, none, s, false)

/-- The three body-carrying methods of the pipeline. -/
def mutatingMethods : List String := ["POST", "PUT", "PATCH"]

/-- `parsed = body ? JSON.parse(body) : {}` guarded by try/catch:
an empty raw body parses to the empty object without invoking the
parser, otherwise a parse failure is `none`. -/
def parseBody (parse : String → Option JObj) (raw : String) : Option JObj :=
  if raw == "" then some [] else parse raw

/-- The request pipeline `handleRequest`: CORS headers, the OPTIONS
short circuit, route matching, body parsing for mutating methods, then
handler dispatch.  The artificial delay only defers the same handler
invocation, so it is invisible to the state transformation modelled
here. -/
def handleRequest (cors ro : Bool) (parse : String → Option JObj) (s : DataStore)
    (m path : String) (q : Query) (raw : String) : HResult :=
  if m == "OPTIONS" then ⟨204, RespBody.empty, none, cors, s, false⟩
  else
    match findRoute (genRoutes s) m path with
    | none => ⟨404, RespBody.obj notFoundErr, none, cors, s, false⟩
    | some (pat, idp) =>
      if m ∈ mutatingMethods then
        match parseBody parse raw with
        | none => ⟨400, RespBody.obj [("error", JVal.jstr "Invalid JSON")], none, cors, s, false⟩
        | some b =>
          let r := execRoute ro s m pat idp q b
          ⟨r.1, r.2.1, r.2.2.1, cors, r.2.2.2.1, r.2.2.2.2⟩
      else
        let r := execRoute ro s m pat idp q []
        ⟨r.1, r.2.1, r.2.2.1, cors, r.2.2.2.1, r.2.2.2.2⟩

/-- `loadData`: a missing file throws, unparsable content throws, valid
content replaces the store wholesale.  File reading and JSON parsing are
platform functions, passed in as the file's current content and a parse
function. -/
def loadData (parse : String → Option DataStore) (file : Option String) :
    Except String DataStore :=
  match file with
  | none => Except.error "Data file not found"
  | some c =>
    match parse c with
    | none => Except.error "Invalid JSON in data file"
    | some d => Except.ok d

/-- The `watchFile` callback: try `loadData`, keep the previous store on
any failure (the catch branch only logs). -/
def watchReload (parse : String → Option DataStore) (file : Option String)
    (cur : DataStore) : DataStore :=
  match loadData parse file with
  | Except.ok d => d
  | Except.error _ => cur

/-- A concrete stand-in for `JSON.parse` that rejects every body, used to
exercise the malformed-body path on concrete inputs. -/
def parseAlwaysFails : String → Option JObj := fun _ => none

/-- A concrete stand-in for `JSON.parse` on the backing file, used to
exercise the reload path on concrete inputs. -/
def parseDemoStore : String → Option DataStore :=
  fun c => if c == "db" then some [("users", [])] else none

theorem mergeObjs_single_get (k : String) (x : JVal) (b : JObj) :
    JObj.get (mergeObjs [(k, x)] b) k = some ((JObj.get b k).getD x) := by
  cases hb : JObj.get b k with
  | none =>
    have hf : ([(k, x)] : JObj).filter (fun p => (JObj.get b p.1).isNone) = [(k, x)] := by
      simp [List.filter_cons, hb]
    rw [mergeObjs, hf]
    simp [JObj.get, List.find?_cons]
  | some v =>
    have hf : ([(k, x)] : JObj).filter (fun p => (JObj.get b p.1).isNone) = [] := by
      simp [List.filter_cons, hb]
    rw [mergeObjs, hf]
    simpa using hb

theorem mergeObjs_get_right (a b : JObj) (k : String) (v : JVal)
    (hb : JObj.get b k = some v) : JObj.get (mergeObjs a b) k = some v := by
  have hnone :
      (a.filter (fun p => (JObj.get b p.1).isNone)).find? (fun p => p.1 == k) = none := by
    apply List.find?_eq_none.mpr
    intro p hp hpk
    have hmem := List.mem_filter.mp hp
    have hk : p.1 = k := by simpa using hpk
    rw [hk, hb] at hmem
    simp at hmem
  rw [mergeObjs, JObj.get, List.find?_append, hnone]
  simpa [JObj.get] using hb

theorem foldl_optMax_none (xs : List (Option Int)) : xs.foldl optMax none = none := by
  induction xs with
  | nil => rfl
  | cons y ys ih =>
    have h : optMax none y = none := by cases y <;> rfl
    simpa [List.foldl, h] using ih

theorem foldl_optMax_mem_none (xs : List (Option Int)) (x : Option Int)
    (h : none ∈ xs) : xs.foldl optMax x = none := by
  induction xs generalizing x with
  | nil => cases h
  | cons y ys ih =>
    rcases List.mem_cons.mp h with hy | hy
    · have hx : optMax x y = none := by rw [← hy]; cases x <;> rfl
      simpa [List.foldl, hx] using foldl_optMax_none ys
    · exact ih (optMax x y) hy

theorem optMax_eq_some (x y : Option Int) (t : Int) (h : optMax x y = some t) :
    ∃ p q, x = some p ∧ y = some q ∧ t = max p q := by
  cases x with
  | none => simp [optMax] at h
  | some p =>
    cases y with
    | none => simp [optMax] at h
    | some q =>
      refine ⟨p, q, rfl, rfl, ?_⟩
      simp [optMax] at h
      omega

theorem foldl_optMax_init_some (ys : List (Option Int)) (z : Option Int) (m : Int)
    (h : ys.foldl optMax z = some m) : ∃ t, z = some t := by
  cases hz : z with
  | none =>
    rw [hz, foldl_optMax_none] at h
    cases h
  | some t => exact ⟨t, rfl⟩

theorem foldl_optMax_ub (xs : List (Option Int)) : ∀ (x : Option Int) (m : Int),
    xs.foldl optMax x = some m →
    (∀ k, x = some k → k ≤ m) ∧ (∀ o ∈ xs, ∀ k, o = some k → k ≤ m) := by
  induction xs with
  | nil =>
    intro x m h
    refine ⟨?_, by simp⟩
    intro k hk
    rw [hk] at h
    cases h
    omega
  | cons y ys ih =>
    intro x m h
    have h' : ys.foldl optMax (optMax x y) = some m := h
    obtain ⟨t, ht⟩ := foldl_optMax_init_some ys (optMax x y) m h'
    obtain ⟨h1, h2⟩ := ih (optMax x y) m h'
    have htm : t ≤ m := h1 t ht
    obtain ⟨p, q, hx, hy, hpq⟩ := optMax_eq_some x y t ht
    constructor
    · intro k hk
      rw [hk] at hx
      cases hx
      omega
    · intro o ho k hk
      rcases List.mem_cons.mp ho with rfl | hmem
      · rw [hk] at hy
        cases hy
        omega
      · exact h2 o hmem k hk

theorem foldl_optMax_attained (xs : List (Option Int)) : ∀ (x : Option Int) (m : Int),
    xs.foldl optMax x = some m → x = some m ∨ some m ∈ xs := by
  induction xs with
  | nil =>
    intro x m h
    exact Or.inl h
  | cons y ys ih =>
    intro x m h
    have h' : ys.foldl optMax (optMax x y) = some m := h
    rcases ih (optMax x y) m h' with heq | hmem
    · obtain ⟨p, q, hx, hy, hpq⟩ := optMax_eq_some x y m heq
      rcases max_choice p q with hc | hc
      · refine Or.inl ?_
        rw [hx, hpq, hc]
      · refine Or.inr ?_
        have hmy : some m = y := by rw [hy, hpq, hc]
        rw [hmy]
        exact List.mem_cons_self _ _
    · exact Or.inr (List.mem_cons_of_mem _ hmem)

theorem foldl_optMax_zeros (xs : List (Option Int)) (h : ∀ o ∈ xs, o = some 0) :
    xs.foldl optMax (some 0) = some 0 := by
  induction xs with
  | nil => rfl
  | cons y ys ih =>
    have hy : y = some 0 := h y (List.mem_cons_self _ _)
    have hrest : ∀ o ∈ ys, o = some 0 := fun o ho => h o (List.mem_cons_of_mem _ ho)
    have hstep : optMax (some 0) y = some 0 := by rw [hy]; rfl
    simpa [List.foldl, hstep] using ih hrest

/-- C1: the claim states that a successful create responds 201 with a record
whose id equals the newly computed id even when the body carries an id; on
the code, the spread that builds the new record writes the computed id field
first and then spreads the body over it, letting the body's id override the
computed one, so on an empty collection (computed id 1) a body with id 99 is
answered with id 99. -/
theorem C1_counterexample :
    (createHandler false [("users", [])] "users" [("id", JVal.jnum 99)]).status = 201
    ∧ JObj.get (createHandler false [("users", [])] "users" [("id", JVal.jnum 99)]).body "id"
        ≠ some (numOrNaN (newId (getColl [("users", [])] "users"))) := by
  decide

/-- C1 (amended): a successful create responds 201 and appends the body
merged over the computed id; the computed id fills the id field only when
the body itself has no id field, a caller-supplied id wins, and the file is
written. -/
theorem C1_amended_create :
    ∀ (s : DataStore) (res : String) (b : JObj),
      (createHandler false s res b).status = 201
      ∧ JObj.get (createHandler false s res b).body "id"
          = some ((JObj.get b "id").getD (numOrNaN (newId (getColl s res))))
      ∧ (createHandler false s res b).store
          = setColl s res
              (getColl s res ++ [mergeObjs [("id", numOrNaN (newId (getColl s res)))] b])
      ∧ (createHandler false s res b).wrote = true := by
  intro s res b
  exact ⟨rfl, mergeObjs_single_get "id" _ b, rfl, rfl⟩

/-- C3: the claim states the computed id equals 1 whenever the collection has
no numeric ids; on the code a truthy non-numeric id (here the string "abc")
makes `Math.max` return NaN, so the computed id is NaN, not 1. -/
theorem C3_counterexample :
    newId [[("id", JVal.jstr "abc")]] ≠ some 1 := by decide

/-- C3 (amended): the computed id is 1 on an empty collection; on a non-empty
collection each id is numerically coerced with falsy ids treated as 0, and if
every coercion is numeric the computed id is one greater than the maximum
coerced id (hence strictly greater than every numeric id, and 1 when every id
is falsy), while any record whose coerced id is NaN makes the computed id NaN. -/
theorem C3_amended_newId :
    newId [] = some 1
    ∧ (∀ (items : List JObj) (r : JObj), r ∈ items → idCoerced r = none →
        newId items = none)
    ∧ (∀ (items : List JObj) (n : Int), newId items = some n → items ≠ [] →
        (∀ r ∈ items, ∀ k, idCoerced r = some k → k < n)
        ∧ (∃ r ∈ items, idCoerced r = some (n - 1)))
    ∧ (∀ (items : List JObj), items ≠ [] → (∀ r ∈ items, idCoerced r = some 0) →
        newId items = some 1) := by
  refine ⟨rfl, ?_, ?_, ?_⟩
  · intro items r hr hc
    cases items with
    | nil => cases hr
    | cons i is =>
      show ((is.map idCoerced).foldl optMax (idCoerced i)).map (fun m => m + 1) = none
      rcases List.mem_cons.mp hr with rfl | hmem
      · rw [hc, foldl_optMax_none]
        rfl
      · have : (none : Option Int) ∈ is.map idCoerced :=
          List.mem_map.mpr ⟨r, hmem, hc⟩
        rw [foldl_optMax_mem_none _ _ this]
        rfl
  · intro items n h hne
    cases items with
    | nil => exact absurd rfl hne
    | cons i is =>
      have h' : ((is.map idCoerced).foldl optMax (idCoerced i)).map (fun m => m + 1)
          = some n := h
      obtain ⟨m, hm, hmn⟩ := Option.map_eq_some'.mp h'
      obtain ⟨hub1, hub2⟩ := foldl_optMax_ub (is.map idCoerced) (idCoerced i) m hm
      constructor
      · intro r hr k hk
        rcases List.mem_cons.mp hr with rfl | hmem
        · have := hub1 k hk
          omega
        · have : idCoerced r ∈ is.map idCoerced := List.mem_map.mpr ⟨r, hmem, rfl⟩
          have := hub2 _ this k hk
          omega
      · rcases foldl_optMax_attained (is.map idCoerced) (idCoerced i) m hm with hi | hmem
        · exact ⟨i, List.mem_cons_self _ _, by rw [hi]; congr 1; omega⟩
        · obtain ⟨r, hr, hrc⟩ := List.mem_map.mp hmem
          exact ⟨r, List.mem_cons_of_mem _ hr, by rw [hrc]; congr 1; omega⟩
  · intro items hne hall
    cases items with
    | nil => exact absurd rfl hne
    | cons i is =>
      show ((is.map idCoerced).foldl optMax (idCoerced i)).map (fun m => m + 1) = some 1
      have hi : idCoerced i = some 0 := hall i (List.mem_cons_self _ _)
      have hrest : ∀ o ∈ is.map idCoerced, o = some 0 := by
        intro o ho
        obtain ⟨r, hr, hrc⟩ := List.mem_map.mp ho
        rw [← hrc]
        exact hall r (List.mem_cons_of_mem _ hr)
      rw [hi, foldl_optMax_zeros _ hrest]
      rfl

/-- C3 (witness for the amended theorem): a collection containing the
non-numeric id "x" yields the NaN id, and a collection whose records carry
no id at all (coerced ids all 0) yields the id 1. -/
theorem C3_amended_newId_witness :
    newId [[("id", JVal.jstr "x")], [("id", JVal.jnum 3)]] = none
    ∧ newId [[], [("name", JVal.jstr "A")]] = some 1 :=
  ⟨C3_amended_newId.2.1 [[("id", JVal.jstr "x")], [("id", JVal.jnum 3)]]
      [("id", JVal.jstr "x")] (by decide) (by decide),
    C3_amended_newId.2.2.2 [[], [("name", JVal.jstr "A")]] (by decide) (by decide)⟩

/-- C2: the claim states that replace stores and returns the body with the
original id reasserted; on the code the body is spread after the reasserted
id, so replacing record id 1 with a body carrying id 2 stores and returns
id 2, not the original 1. -/
theorem C2_counterexample :
    (replaceHandler false [("users", [[("id", JVal.jnum 1)]])] "users" "1"
        [("id", JVal.jnum 2)]).status = 200
    ∧ JObj.get (replaceHandler false [("users", [[("id", JVal.jnum 1)]])] "users" "1"
        [("id", JVal.jnum 2)]).body "id" ≠ some (JVal.jnum 1)
    ∧ JObj.get ((getColl (replaceHandler false [("users", [[("id", JVal.jnum 1)]])] "users" "1"
        [("id", JVal.jnum 2)]).store "users").headD []) "id" ≠ some (JVal.jnum 1) := by
  decide

/-- C2 (amended): on a matched id, replace responds 200 with the request body
merged over the original id and stores that record wholesale; the original id
survives only when the body has no id field — a body-supplied id replaces it. -/
theorem C2_amended_replace :
    ∀ (s : DataStore) (res idStr : String) (b : JObj) (idx : Nat),
      (getColl s res).findIdx? (objMatchesId idStr) = some idx →
      (replaceHandler false s res idStr b).status = 200
      ∧ (replaceHandler false s res idStr b).body
          = mergeObjs [("id", jsGet (((getColl s res)[idx]?).getD []) "id")] b
      ∧ JObj.get (replaceHandler false s res idStr b).body "id"
          = some ((JObj.get b "id").getD (jsGet (((getColl s res)[idx]?).getD []) "id"))
      ∧ (replaceHandler false s res idStr b).store
          = setColl s res ((getColl s res).set idx
              (mergeObjs [("id", jsGet (((getColl s res)[idx]?).getD []) "id")] b))
      ∧ (replaceHandler false s res idStr b).wrote = true := by
  intro s res idStr b idx h
  have hr : replaceHandler false s res idStr b
      = ⟨200, mergeObjs [("id", jsGet (((getColl s res)[idx]?).getD []) "id")] b,
          setColl s res ((getColl s res).set idx
            (mergeObjs [("id", jsGet (((getColl s res)[idx]?).getD []) "id")] b)), true⟩ := by
    simp only [replaceHandler, h, saveWrote]
    rfl
  rw [hr]
  exact ⟨rfl, rfl, mergeObjs_single_get "id" _ b, rfl, rfl⟩

/-- C2 (witness): replacing the record with id 1 by a body with id 2
succeeds with status 200. -/
theorem C2_amended_replace_witness :
    (replaceHandler false [("users", [[("id", JVal.jnum 1)]])] "users" "1"
      [("id", JVal.jnum 2)]).status = 200 :=
  (C2_amended_replace [("users", [[("id", JVal.jnum 1)]])] "users" "1"
    [("id", JVal.jnum 2)] 0 (by decide)).1

/-- C9: update (PATCH) does not preserve the stored id — the shallow merge
lets a body-supplied id overwrite it, and the merged record afterwards
matches the path segment of the new id, no longer the old one. -/
theorem C9_update_overwrites_id :
    ∀ (s : DataStore) (res idStr : String) (b : JObj) (idx : Nat) (v : JVal),
      (getColl s res).findIdx? (objMatchesId idStr) = some idx →
      JObj.get b "id" = some v →
      (updateHandler false s res idStr b).status = 200
      ∧ (updateHandler false s res idStr b).body
          = mergeObjs (((getColl s res)[idx]?).getD []) b
      ∧ JObj.get (updateHandler false s res idStr b).body "id" = some v
      ∧ objMatchesId (jToString v) (updateHandler false s res idStr b).body = true
      ∧ (jToString v ≠ idStr →
          objMatchesId idStr (updateHandler false s res idStr b).body = false)
      ∧ (updateHandler false s res idStr b).store
          = setColl s res ((getColl s res).set idx
              (mergeObjs (((getColl s res)[idx]?).getD []) b)) := by
  intro s res idStr b idx v h hb
  have hr : updateHandler false s res idStr b
      = ⟨200, mergeObjs (((getColl s res)[idx]?).getD []) b,
          setColl s res ((getColl s res).set idx
            (mergeObjs (((getColl s res)[idx]?).getD []) b)), true⟩ := by
    simp only [updateHandler, h, saveWrote]
    rfl
  have hid : JObj.get (mergeObjs (((getColl s res)[idx]?).getD []) b) "id" = some v :=
    mergeObjs_get_right _ _ _ _ hb
  rw [hr]
  refine ⟨rfl, rfl, hid, ?_, ?_, rfl⟩
  · simp [objMatchesId, jsGet, hid]
  · intro hne
    simp [objMatchesId, jsGet, hid, hne]

/-- C9 (witness): patching the record with id 1 by a body with id 7 responds
200 and the merged record carries id 7 and now matches the path segment "7". -/
theorem C9_update_overwrites_id_witness :
    (updateHandler false [("users", [[("id", JVal.jnum 1), ("name", JVal.jstr "A")]])]
        "users" "1" [("id", JVal.jnum 7)]).status = 200
    ∧ JObj.get (updateHandler false [("users", [[("id", JVal.jnum 1), ("name", JVal.jstr "A")]])]
        "users" "1" [("id", JVal.jnum 7)]).body "id" = some (JVal.jnum 7)
    ∧ objMatchesId "1" (updateHandler false
        [("users", [[("id", JVal.jnum 1), ("name", JVal.jstr "A")]])]
        "users" "1" [("id", JVal.jnum 7)]).body = false := by
  have h := C9_update_overwrites_id [("users", [[("id", JVal.jnum 1), ("name", JVal.jstr "A")]])]
    "users" "1" [("id", JVal.jnum 7)] 0 (JVal.jnum 7) (by decide) (by decide)
  exact ⟨h.1, h.2.2.1, h.2.2.2.2.1 (by decide)⟩

/-- C4: the list handler applies its steps in the order filter, count,
paginate, sort — the page window is cut from the filtered but unsorted
collection and only that windowed slice is sorted; and the order matters:
paginating before sorting differs from sorting before paginating. -/
theorem C4_list_pipeline_order :
    (∀ (s : DataStore) (res : String) (q : Query),
      listHandler s res q
        = ⟨200, sortStage q (pageStage q (filterStage q (getColl s res))),
            (filterStage q (getColl s res)).length⟩)
    ∧ (∃ (q : Query) (items : List JObj),
        sortStage q (pageStage q items) ≠ pageStage q (sortStage q items)) := by
  constructor
  · intro s res q
    rfl
  · exact ⟨[("_sort", "id"), ("_limit", "2")],
      [[("id", JVal.jnum 3)], [("id", JVal.jnum 1)], [("id", JVal.jnum 2)]], by decide⟩

theorem jsSlice_nonneg_eq_specWindow (l : List α) (start lim : Int)
    (hs : 0 ≤ start) (hl : 0 ≤ lim) :
    jsSlice l start (start + lim) = specWindow l start lim := by
  unfold jsSlice specWindow
  have hmax : max start 0 = start := by omega
  have hstart : ¬ (start < 0) := by omega
  have hstop : ¬ (start + lim < 0) := by omega
  rw [hmax]
  simp only [if_neg hstart, if_neg hstop]
  by_cases hge : (l.length : Int) ≤ start
  · have h1 : min start (l.length : Int) = (l.length : Int) := by omega
    rw [h1]
    have h2 : l.drop ((l.length : Int)).toNat = [] := by
      simp
    have h3 : l.drop start.toNat = [] := by
      apply List.drop_eq_nil_of_le
      omega
    rw [h2, h3]
    simp
  · have h1 : min start (l.length : Int) = start := by omega
    rw [h1]
    apply List.take_eq_take.mpr
    have hdl : (l.drop start.toNat).length = l.length - start.toNat := List.length_drop _ _
    rw [hdl]
    omega

/-- C5: the claim states that pagination returns the index window from
(page-1)*limit of the given length; with a negative `_page` the source's
`Array.slice` indexes from the end of the collection instead, so on a
2-record collection `_page=-1&_limit=1` returns the first record while the
claimed window (indices -2 to -1) holds no record at all. -/
theorem C5_counterexample :
    (listHandler [("users", [[("id", JVal.jnum 1)], [("id", JVal.jnum 2)]])] "users"
        [("_page", "-1"), ("_limit", "1")]).body
      ≠ specWindow
          (filterStage [("_page", "-1"), ("_limit", "1")]
            (getColl [("users", [[("id", JVal.jnum 1)], [("id", JVal.jnum 2)]])] "users"))
          ((pageOf [("_page", "-1"), ("_limit", "1")] - 1)
            * limitOf [("_page", "-1"), ("_limit", "1")] 2)
          (limitOf [("_page", "-1"), ("_limit", "1")] 2) := by
  decide

/-- C5 (amended): the X-Total-Count value always equals the filtered length
regardless of the page window; and whenever the parsed page is at least 1 and
the parsed limit is nonnegative (in particular under the defaults page 1 and
limit = filtered length), pagination returns exactly the index window from
(page-1)*limit of size limit, and a window starting at or beyond the end of
the filtered collection yields the empty sequence.  A negative `_page`
instead triggers end-relative slicing. -/
theorem C5_amended_pagination :
    (∀ (s : DataStore) (res : String) (q : Query),
      (listHandler s res q).totalCount = (filterStage q (getColl s res)).length)
    ∧ (∀ (q : Query) (filtered : List JObj),
        1 ≤ pageOf q → 0 ≤ limitOf q filtered.length →
        pageStage q filtered
            = specWindow filtered ((pageOf q - 1) * limitOf q filtered.length)
                (limitOf q filtered.length)
          ∧ ((filtered.length : Int) ≤ (pageOf q - 1) * limitOf q filtered.length →
              pageStage q filtered = [])) := by
  constructor
  · intro s res q
    rfl
  · intro q filtered hp hl
    have hs : 0 ≤ (pageOf q - 1) * limitOf q filtered.length := mul_nonneg (by omega) hl
    have heq := jsSlice_nonneg_eq_specWindow filtered
      ((pageOf q - 1) * limitOf q filtered.length) (limitOf q filtered.length) hs hl
    refine ⟨heq, ?_⟩
    intro hbig
    rw [show pageStage q filtered
        = jsSlice filtered ((pageOf q - 1) * limitOf q filtered.length)
            ((pageOf q - 1) * limitOf q filtered.length + limitOf q filtered.length) from rfl,
      heq]
    unfold specWindow
    have hdrop : filtered.drop
        ((max ((pageOf q - 1) * limitOf q filtered.length) 0).toNat) = [] := by
      apply List.drop_eq_nil_of_le
      omega
    rw [hdrop]
    exact List.take_nil

/-- C5 (witness): on a 3-record collection, `_page=2&_limit=1` returns
exactly the index window starting at 1 of size 1, and `_page=5&_limit=1`
returns the empty sequence. -/
theorem C5_amended_pagination_witness :
    pageStage [("_page", "2"), ("_limit", "1")]
        ([[("id", JVal.jnum 1)], [("id", JVal.jnum 2)], [("id", JVal.jnum 3)]] : List JObj)
      = specWindow
        ([[("id", JVal.jnum 1)], [("id", JVal.jnum 2)], [("id", JVal.jnum 3)]] : List JObj) 1 1
    ∧ pageStage [("_page", "5"), ("_limit", "1")]
        ([[("id", JVal.jnum 1)], [("id", JVal.jnum 2)], [("id", JVal.jnum 3)]] : List JObj)
      = [] := by
  constructor
  · exact (C5_amended_pagination.2 [("_page", "2"), ("_limit", "1")]
      [[("id", JVal.jnum 1)], [("id", JVal.jnum 2)], [("id", JVal.jnum 3)]]
      (by decide) (by decide)).1
  · exact (C5_amended_pagination.2 [("_page", "5"), ("_limit", "1")]
      [[("id", JVal.jnum 1)], [("id", JVal.jnum 2)], [("id", JVal.jnum 3)]]
      (by decide) (by decide)).2 (by decide)

theorem execRoute_readonly_state (s : DataStore) (m : String) (pat : RoutePat)
    (idp : Option String) (q : Query) (b : JObj) :
    (execRoute true s m pat idp q b).2.2.2.1 = s
    ∧ (execRoute true s m pat idp q b).2.2.2.2 = false := by
  unfold execRoute
  split <;>
    first
      | exact ⟨rfl, rfl⟩
      | (unfold getOneHandler; split <;> exact ⟨rfl, rfl⟩)

/-- C6: in read-only mode each of the four mutating handlers responds 403
with the read-only error body, leaves the store untouched and never writes
the backing file; and across the whole pipeline no read-only request, on any
method or path, changes the store or writes the file. -/
theorem C6_readonly_no_mutation :
    (∀ (s : DataStore) (res : String) (b : JObj),
      createHandler true s res b = ⟨403, roErr, s, false⟩)
    ∧ (∀ (s : DataStore) (res idStr : String) (b : JObj),
      replaceHandler true s res idStr b = ⟨403, roErr, s, false⟩)
    ∧ (∀ (s : DataStore) (res idStr : String) (b : JObj),
      updateHandler true s res idStr b = ⟨403, roErr, s, false⟩)
    ∧ (∀ (s : DataStore) (res idStr : String),
      deleteHandler true s res idStr = ⟨403, roErr, s, false⟩)
    ∧ (∀ (cors : Bool) (parse : String → Option JObj) (s : DataStore) (m path : String)
        (q : Query) (raw : String),
      (handleRequest cors true parse s m path q raw).store = s
      ∧ (handleRequest cors true parse s m path q raw).wrote = false) := by
  refine ⟨fun s res b => rfl, fun s res i b => rfl, fun s res i b => rfl,
    fun s res i => rfl, ?_⟩
  intro cors parse s m path q raw
  unfold handleRequest
  split
  · exact ⟨rfl, rfl⟩
  · split
    · exact ⟨rfl, rfl⟩
    · split
      · split
        · exact ⟨rfl, rfl⟩
        · exact execRoute_readonly_state s m _ _ q _
      · exact execRoute_readonly_state s m _ _ q _

/-- C7: a watch-triggered reload replaces the in-memory store with the parsed
file content when the file exists and parses; a missing file or a parse
failure leaves the previous store unchanged (the callback only logs). -/
theorem C7_watch_reload :
    ∀ (parse : String → Option DataStore) (file : Option String) (cur : DataStore),
      (∀ c d, file = some c → parse c = some d → watchReload parse file cur = d)
      ∧ (∀ c, file = some c → parse c = none → watchReload parse file cur = cur)
      ∧ (file = none → watchReload parse file cur = cur) := by
  intro parse file cur
  refine ⟨?_, ?_, ?_⟩
  · intro c d hf hp
    subst hf
    simp [watchReload, loadData, hp]
  · intro c hf hp
    subst hf
    simp [watchReload, loadData, hp]
  · intro hf
    subst hf
    rfl

/-- C7 (witness): with a parse function accepting exactly the content "db",
reloading from "db" installs the parsed store, reloading from unparsable
content keeps the old store, and a missing file keeps the old store. -/
theorem C7_watch_reload_witness :
    watchReload parseDemoStore (some "db") [("old", [])] = [("users", [])]
    ∧ watchReload parseDemoStore (some "garbage") [("old", [])] = [("old", [])]
    ∧ watchReload parseDemoStore none [("old", [])] = [("old", [])] := by
  refine ⟨?_, ?_, ?_⟩
  · exact (C7_watch_reload parseDemoStore (some "db") [("old", [])]).1 "db"
      [("users", [])] rfl (by decide)
  · exact (C7_watch_reload parseDemoStore (some "garbage") [("old", [])]).2.1 "garbage"
      rfl (by decide)
  · exact (C7_watch_reload parseDemoStore none [("old", [])]).2.2 rfl

/-- C8: a mutating request whose body fails to parse is answered 400 with the
Invalid JSON error before the matched handler runs: the store is unchanged,
the file is not written, and the response does not depend on the handler. -/
theorem C8_invalid_body_aborts :
    ∀ (cors ro : Bool) (parse : String → Option JObj) (s : DataStore) (m path : String)
      (q : Query) (raw : String) (rt : RoutePat × Option String),
      m ∈ mutatingMethods →
      findRoute (genRoutes s) m path = some rt →
      parseBody parse raw = none →
      handleRequest cors ro parse s m path q raw
        = ⟨400, RespBody.obj [("error", JVal.jstr "Invalid JSON")], none, cors, s, false⟩ := by
  intro cors ro parse s m path q raw rt hm hroute hbody
  obtain ⟨pat, idp⟩ := rt
  have hopt : (m == "OPTIONS") = false := by
    simp only [mutatingMethods, List.mem_cons, List.not_mem_nil, or_false] at hm
    rcases hm with rfl | rfl | rfl <;> rfl
  unfold handleRequest
  rw [hopt]
  simp only [Bool.false_eq_true, if_false, hroute, if_pos hm, hbody]

/-- C8 (witness): a POST to the generated /users route with the unparsable
body "x" yields 400 Invalid JSON and leaves the store unchanged. -/
theorem C8_invalid_body_aborts_witness :
    handleRequest true false parseAlwaysFails [("users", [])] "POST" "/users" [] "x"
      = ⟨400, RespBody.obj [("error", JVal.jstr "Invalid JSON")], none, true,
          [("users", [])], false⟩ :=
  C8_invalid_body_aborts true false parseAlwaysFails [("users", [])] "POST" "/users" [] "x"
    (RoutePat.coll "users", none) (by decide) (by decide) (by decide)

/-- C10: every OPTIONS request is answered 204 with an empty body before any
routing, whatever the CORS setting, the route table and the path; and
disabling CORS changes nothing but the attached headers — the rest of the
response, the store and the write behaviour are identical. -/
theorem C10_options_short_circuit :
    (∀ (cors ro : Bool) (parse : String → Option JObj) (s : DataStore) (path : String)
        (q : Query) (raw : String),
      handleRequest cors ro parse s "OPTIONS" path q raw
        = ⟨204, RespBody.empty, none, cors, s, false⟩)
    ∧ (∀ (ro : Bool) (parse : String → Option JObj) (s : DataStore) (m path : String)
        (q : Query) (raw : String),
      handleRequest false ro parse s m path q raw
        = { handleRequest true ro parse s m path q raw with corsHeaders := false }) := by
  constructor
  · intro cors ro parse s path q raw
    rfl
  · intro ro parse s m path q raw
    unfold handleRequest
    split
    · rfl
    · split
      · rfl
      · split
        · split
          · rfl
          · rfl
        · rfl

end MockApi
